import Mathlib

/-!
Verification of the wids-economic-impact-integration repository.

Shallow embedding of the entity-matching engine (refined_integrator.py,
full_scale_integrator.py) and the economic impact calculators
(economic_impact_api_integrator.py, full_scale_economic_integrator.py).

Python floats are modelled by exact rationals; the float value
`inf` returned by the distance helper on invalid input is modelled by
`WithTop ℚ`.  Dict-shaped records are modelled by association lists of
string keys and a small value universe `Val`.  The geodesic distance
computation is an external library call (geopy), so the match scorers are
parameterised by a distance function; the great-circle distance needed by
claim C3 is modelled from the spec over the reals.
-/

namespace Wids

/-! ## Character helpers (ASCII, matching Python semantics used by the code) -/

/-- Characters Python treats as whitespace in `str.strip()` and `\s`. -/
def isPySpace (c : Char) : Bool :=
  c = ' ' || c = '\t' || c = '\n' || c = '\r' || c = '\x0b' || c = '\x0c'

def isLowerAlpha (c : Char) : Bool := 'a' ≤ c && c ≤ 'z'

def isUpperAlpha (c : Char) : Bool := 'A' ≤ c && c ≤ 'Z'

def isAsciiAlpha (c : Char) : Bool := isLowerAlpha c || isUpperAlpha c

def isAsciiDigit (c : Char) : Bool := '0' ≤ c && c ≤ '9'

/-- Python regex word character `\w` (ASCII). -/
def isWordChar (c : Char) : Bool := isAsciiAlpha c || isAsciiDigit c || c = '_'

/-- Strip trailing whitespace. -/
def stripEnd (l : List Char) : List Char := (l.reverse.dropWhile isPySpace).reverse

/-- Python `str.strip()`. -/
def stripBoth (l : List Char) : List Char := stripEnd (l.dropWhile isPySpace)

/-! ## Name canonicalization

`RefinedEntityMatcher.canonicalize_name` (refined_integrator.py lines
155-174) and `OptimizedEntityMatcher.canonicalize_name`
(full_scale_integrator.py lines 96-115) are textually identical.  Each
regex substitution of the pipeline is embedded as one total function on
character lists, following Python `re.sub` semantics (left to right,
non-overlapping, greedy). -/

/-- Step 1, regex `^[a-z]{2}-[a-z]{3}-` removed (anchored, at most once). -/
def dropSourceTag (l : List Char) : List Char :=
  match l with
  | a :: b :: '-' :: c :: d :: e :: '-' :: rest =>
    if isLowerAlpha a && isLowerAlpha b && isLowerAlpha c &&
       isLowerAlpha d && isLowerAlpha e then rest else l
  | _ => l

/-- Step 2, regex `-n\d{2}[a-z]$` removed (anchored at the end). -/
def dropUnitTag (l : List Char) : List Char :=
  match l.reverse with
  | e :: d2 :: d1 :: 'n' :: '-' :: rest =>
    if isLowerAlpha e && isAsciiDigit d1 && isAsciiDigit d2 then rest.reverse else l
  | _ => l

/-- Step 3, regex `\(|\)` removed everywhere. -/
def dropParens (l : List Char) : List Char :=
  l.filter (fun c => !(c = '(' || c = ')'))

/-- Step 4, regex `-` replaced by a space everywhere. -/
def dashesToSpaces (l : List Char) : List Char :=
  l.map (fun c => if c = '-' then ' ' else c)

/-- Step 5, regex `([a-zA-Z])(\d)` replaced by the pair with a space between;
matches are found left to right and do not overlap (the digit is consumed). -/
def splitLetterDigit : List Char → List Char
  | [] => []
  | [c] => [c]
  | c1 :: c2 :: rest =>
    if isAsciiAlpha c1 && isAsciiDigit c2 then
      c1 :: ' ' :: c2 :: splitLetterDigit rest
    else
      c1 :: splitLetterDigit (c2 :: rest)

/-- Helper for `mapWordTokens`: `cur` holds the word run being read, in
reverse; it is flushed through `f` at each run end. -/
def mapWordTokensAux (f : List Char → List Char) (cur : List Char) :
    List Char → List Char
  | [] => if cur.isEmpty then [] else f cur.reverse
  | c :: rest =>
    if isWordChar c then mapWordTokensAux f (c :: cur) rest
    else (if cur.isEmpty then [] else f cur.reverse) ++ c :: mapWordTokensAux f [] rest

/-- Apply `f` to every maximal run of word characters, keeping everything else.
Used to embed the word-boundary regexes of steps 6 and 8. -/
def mapWordTokens (f : List Char → List Char) (l : List Char) : List Char :=
  mapWordTokensAux f [] l

/-- Step 6, regex `\b0+(\d+)\b`: a word token made only of digits, at least
two of them, starting with a zero, has its leading zeros removed (at least one
digit is kept). -/
def stripLeadingZeros (w : List Char) : List Char :=
  if w.all isAsciiDigit && decide (2 ≤ w.length) && w.headD ' ' = '0' then
    match w.dropWhile (fun c => c = '0') with
    | [] => ['0']
    | r => r
  else w

def boundaryBefore (prev : Option Char) : Bool :=
  match prev with
  | none => true
  | some c => !isWordChar c

def boundaryAfterAt (l : List Char) : Bool :=
  match l with
  | [] => true
  | c :: _ => !isWordChar c

/-- Step 7, regex `\b(prescribed fire|prescribed burn)\b` replaced by `rx`.
`prev` is the character of the original text just before the current
position (word boundaries are judged on the original text; after a match,
scanning resumes past the matched phrase, whose last character is a word
character). -/
def replaceRx (prev : Option Char) : List Char → List Char
  | 'p' :: 'r' :: 'e' :: 's' :: 'c' :: 'r' :: 'i' :: 'b' :: 'e' :: 'd' :: ' ' ::
      w1 :: w2 :: w3 :: w4 :: rest =>
    if boundaryBefore prev &&
        ((w1 = 'f' && w2 = 'i' && w3 = 'r' && w4 = 'e') ||
         (w1 = 'b' && w2 = 'u' && w3 = 'r' && w4 = 'n')) &&
        boundaryAfterAt rest then
      'r' :: 'x' :: replaceRx (some w4) rest
    else
      'p' :: replaceRx (some 'p')
        ('r' :: 'e' :: 's' :: 'c' :: 'r' :: 'i' :: 'b' :: 'e' :: 'd' :: ' ' ::
          w1 :: w2 :: w3 :: w4 :: rest)
  | c :: rest => c :: replaceRx (some c) rest
  | [] => []

/-- Step 8, regex `\bhwy\b` replaced by `highway` (a full word token). -/
def hwyFix (w : List Char) : List Char :=
  if w = ['h', 'w', 'y'] then "highway".toList else w

/-- Step 9, regex `\s+fire$` removed: a final `fire` token preceded by at
least one whitespace character is dropped together with that whitespace run. -/
def dropTrailingFire (l : List Char) : List Char :=
  match l.reverse with
  | 'e' :: 'r' :: 'i' :: 'f' :: rest =>
    match rest with
    | c :: _ => if isPySpace c then (rest.dropWhile isPySpace).reverse else l
    | [] => l
  | _ => l

/-- Step 10, regex `\s+` replaced by a single space everywhere: each maximal
whitespace run collapses to one space. -/
def collapseSpaces : List Char → List Char
  | [] => []
  | [c] => if isPySpace c then [' '] else [c]
  | c1 :: c2 :: rest =>
    if isPySpace c1 && isPySpace c2 then collapseSpaces (c2 :: rest)
    else (if isPySpace c1 then ' ' else c1) :: collapseSpaces (c2 :: rest)

/-- `canonicalize_name`: empty or falsy input gives the empty string;
otherwise lower-case, strip, and the ten substitutions in order, with a
final strip. -/
def canonicalizeName (s : String) : String :=
  if s = "" then ""
  else
    let l0 := stripBoth (s.toList.map Char.toLower)
    let l1 := dropSourceTag l0
    let l2 := dropUnitTag l1
    let l3 := dropParens l2
    let l4 := dashesToSpaces l3
    let l5 := splitLetterDigit l4
    let l6 := mapWordTokens stripLeadingZeros l5
    let l7 := replaceRx none l6
    let l8 := mapWordTokens hwyFix l7
    let l9 := dropTrailingFire l8
    String.mk (stripBoth (collapseSpaces l9))

/-- Helper for `pyWords`: `cur` holds the characters of the word being read,
in reverse. -/
def pyWordsAux (cur : List Char) : List Char → List String
  | [] => if cur.isEmpty then [] else [String.mk cur.reverse]
  | c :: rest =>
    if isPySpace c then
      if cur.isEmpty then pyWordsAux [] rest
      else String.mk cur.reverse :: pyWordsAux [] rest
    else pyWordsAux (c :: cur) rest

/-- Python `str.split()` with no argument: whitespace-separated words,
empty pieces discarded. -/
def pyWords (l : List Char) : List String := pyWordsAux [] l

/-- `name_similarity_score` (both matcher classes): Jaccard index of the
canonicalized token sets, 0 when either token list is empty. -/
def nameSimilarity (n1 n2 : String) : ℚ :=
  let w1 := pyWords (canonicalizeName n1).toList
  let w2 := pyWords (canonicalizeName n2).toList
  if w1.isEmpty || w2.isEmpty then 0
  else
    let s1 := w1.toFinset
    let s2 := w2.toFinset
    if 0 < (s1 ∪ s2).card then ((s1 ∩ s2).card : ℚ) / ((s1 ∪ s2).card : ℚ) else 0

/-! ## Dict-shaped records -/

/-- Value universe for the dict-shaped records the integrators pass around.
Numbers are exact rationals; `jsonBlob` stands for an opaque parsed JSON
payload (only its identity matters to the claims). -/
inductive Val where
  | str (s : String)
  | num (q : ℚ)
  | strList (l : List String)
  | jsonBlob (s : String)
  | null
  deriving DecidableEq, Repr

/-- A Python dict with string keys, as an association list in insertion
order (keys unique by construction of `Rec.set`). -/
abbrev Rec := List (String × Val)

/-- `r.get(k)` returning `None` when absent. -/
def Rec.get (r : Rec) (k : String) : Option Val :=
  match r.find? (fun kv => kv.1 = k) with
  | some kv => some kv.2
  | none => none

/-- Dict assignment: overwrite in place when the key exists, else append
(Python dicts keep insertion order). -/
def Rec.set (r : Rec) (k : String) (v : Val) : Rec :=
  if r.any (fun kv => kv.1 = k) then
    r.map (fun kv => if kv.1 = k then (k, v) else kv)
  else r ++ [(k, v)]

/-- `float(v)`: numbers convert, everything else is modelled as raising
(the CSV loader delivers coordinates as numbers). -/
def Val.toFloat? : Val → Option ℚ
  | num q => some q
  | _ => none

/-- `float(record.get(k, 0))`: an absent key defaults to `0`; a non-numeric
value raises, modelled by `none`. -/
def Rec.getFloat? (r : Rec) (k : String) : Option ℚ :=
  match r.get k with
  | none => some 0
  | some v => v.toFloat?

/-- `record.get(k, "")` as fed to `canonicalize_name`: a missing or
non-string value behaves like the falsy empty string. -/
def Rec.getStr (r : Rec) (k : String) : String :=
  match r.get k with
  | some (Val.str s) => s
  | _ => ""

/-- Python truthiness of a dict value. -/
def Val.truthy : Val → Bool
  | str s => !(s = "")
  | num q => !(q = 0)
  | strList l => !l.isEmpty
  | jsonBlob _ => true
  | null => false

/-! ## Geographic validation (refined_integrator.py) -/

/-- CA_BOUNDS (lines 37-42). -/
def CA_LAT_MIN : ℚ := 32.5
def CA_LAT_MAX : ℚ := 42.0
def CA_LNG_MIN : ℚ := -124.5
def CA_LNG_MAX : ℚ := -114.0

/-- `GeographicValidator.is_in_california`. -/
def isInCalifornia (lat lng : ℚ) : Bool :=
  decide (CA_LAT_MIN ≤ lat) && decide (lat ≤ CA_LAT_MAX) &&
  decide (CA_LNG_MIN ≤ lng) && decide (lng ≤ CA_LNG_MAX)

/-- Distances are floats that may be the `inf` sentinel
(`calculate_distance_miles` returns infinity when geopy raises). -/
abbrev Dist := WithTop ℚ

/-- The geodesic distance computation (geopy, an external library): the
matching engine is parameterised by it. -/
abbrev DistFn := ℚ → ℚ → ℚ → ℚ → Dist

/-- `GeographicValidator.validate_match` (lines 116-144). -/
def validateMatch (distFn : DistFn) (plat plng elat elng : ℚ) (maxD : ℚ) :
    Bool × Dist × List String :=
  let primaryIn := isInCalifornia plat plng
  let externalIn := isInCalifornia elat elng
  let flags1 := if primaryIn then [] else ["primary_outside_ca"]
  let flags2 := flags1 ++ (if externalIn then [] else ["external_outside_ca"])
  let distance := distFn plat plng elat elng
  let flags3 := flags2 ++ (if (maxD : Dist) < distance then ["distance_too_far"] else [])
  let isValid := primaryIn && externalIn && decide (distance ≤ (maxD : Dist))
  (isValid, distance, flags3)

/-! ## Refined scorer (RefinedEntityMatcher, refined_integrator.py) -/

/-- The distance-to-score curve inlined in
`RefinedEntityMatcher.calculate_match_score` (lines 229-235). -/
def geoScoreRefined (d : ℚ) : ℚ :=
  if d ≤ 5 then 1 - d / 5
  else if d ≤ 15 then 0.8 - ((d - 5) / 10) * 0.6
  else max 0.1 (0.2 - ((d - 15) / 10) * 0.2)

/-- The curve applied to a possibly-infinite distance.  At `inf` the float
arithmetic of the last branch yields `max(0.1, -inf) = 0.1`; this arm is
unreachable from the scorer because validity forces `distance <= 25`. -/
def geoScoreRefinedW (d : Dist) : ℚ :=
  (d.map geoScoreRefined).untop' 0.1

/-- `match_factors` dict (always exactly the three keys). -/
structure Factors where
  name : ℚ
  geographic : ℚ
  temporal : ℚ
  deriving DecidableEq, Repr

/-- An evacuation-zone candidate after `load_external_data_optimized`
(lines 291-308): the loader only keeps rows whose geometry parsed, so the
extracted coordinates are always present. -/
structure Zone where
  extracted_lat : ℚ
  extracted_lng : ℚ
  display_name : String
  uid_v2 : String
  source_attribution : String
  dataset_name : String
  deriving DecidableEq, Repr

/-- `RefinedEntityMatcher.calculate_match_score` (lines 191-247),
specialised as called: geo_fields are the extracted zone coordinates and
name_field is `display_name`.  Weights 0.3 / 0.6 / 0.1 (lines 150-152).
Returns (score, factors, is_valid, distance, quality_flags). -/
def calcMatchScoreRefined (distFn : DistFn) (primary : Rec) (zone : Zone) :
    ℚ × Factors × Bool × Dist × List String :=
  match primary.getFloat? "lat", primary.getFloat? "lng" with
  | some plat, some plng =>
    let elat := zone.extracted_lat
    let elng := zone.extracted_lng
    if plat = 0 || plng = 0 || elat = 0 || elng = 0 then
      (0, ⟨0, 0, 0⟩, false, ⊤, ["missing_coordinates"])
    else
      let v := validateMatch distFn plat plng elat elng 25
      if !v.1 then (0, ⟨0, 0, 0⟩, false, v.2.1, v.2.2)
      else
        let nameScore := nameSimilarity (primary.getStr "name") zone.display_name
        let geoScore := geoScoreRefinedW v.2.1
        (0.3 * nameScore + 0.6 * geoScore + 0.1 * 0.5,
          ⟨nameScore, geoScore, 0.5⟩, true, v.2.1, v.2.2)
  | _, _ => (0, ⟨0, 0, 0⟩, false, ⊤, ["coordinate_error"])

/-! ## Refined match selection and enrichment (RefinedIntegrator) -/

/-- `MatchResult` dataclass of refined_integrator.py (lines 44-54). -/
structure MatchResultR where
  primary_id : Val
  external_id : String
  external_source : String
  confidence_score : ℚ
  distance_miles : Dist
  match_factors : Factors
  quality_flags : List String
  enrichment_data : List (String × Val)
  deriving DecidableEq, Repr

/-- `round(x, 2)` (the exact tie-breaking rule of Python's float rounding is
immaterial to every claim; round-half-up on rationals is used). -/
def round2 (q : ℚ) : ℚ := (round (q * 100) : ℤ) / 100

/-- The `MatchResult(...)` constructed at lines 388-402. -/
def mkMatchR (idv : Val) (z : Zone) (score : ℚ) (dist : Dist) (factors : Factors)
    (qf : List String) : MatchResultR :=
  { primary_id := idv
    external_id := z.uid_v2
    external_source := "evacuation_zones"
    confidence_score := score
    distance_miles := dist
    match_factors := factors
    quality_flags := qf
    enrichment_data :=
      [("evacuation_zone", Val.str z.display_name),
       ("evacuation_source", Val.str z.source_attribution),
       ("evacuation_dataset", Val.str z.dataset_name),
       ("evacuation_distance_miles", Val.num (round2 ((dist.untop' 0))))] }

/-- One step of the best-candidate loop (lines 378-410); the state is
(best_match, best_score), starting from (None, 0.0).  The candidate wins
when it is valid, reaches the 0.4 confidence threshold and strictly beats
the best score; a missing `id` key on the primary raises inside the inner
try and the candidate is skipped. -/
def bestStep (distFn : DistFn) (primary : Rec) (acc : Option MatchResultR × ℚ)
    (z : Zone) : Option MatchResultR × ℚ :=
  let r := calcMatchScoreRefined distFn primary z
  let score := r.1
  let factors := r.2.1
  let isValid := r.2.2.1
  let dist := r.2.2.2.1
  let qf := r.2.2.2.2
  if isValid && decide ((0.4 : ℚ) ≤ score) && decide (acc.2 < score) then
    match primary.get "id" with
    | some idv => (some (mkMatchR idv z score dist factors qf), score)
    | none => acc
  else acc

/-- `RefinedIntegrator.find_evacuation_matches_refined` (lines 352-419):
coordinate extraction, the rough 0.5-degree box filter, then the
best-candidate loop; at most one match is returned. -/
def findEvacuationMatchesRefined (distFn : DistFn) (pool : List Zone)
    (primary : Rec) : List MatchResultR :=
  match primary.getFloat? "lat", primary.getFloat? "lng" with
  | some plat, some plng =>
    if plat = 0 || plng = 0 then []
    else
      let nearby := pool.filter (fun z =>
        decide (|plat - z.extracted_lat| ≤ 0.5) && decide (|plng - z.extracted_lng| ≤ 0.5))
      let best := nearby.foldl (bestStep distFn primary) (none, 0)
      match best.1 with
      | some m => [m]
      | none => []
  | _, _ => []

/-- `value is not None and str(value).strip()` (line 441). -/
def keepEnrichmentVal (v : Val) : Bool :=
  match v with
  | Val.null => false
  | Val.str s => !(String.mk (stripBoth s.toList) = "")
  | _ => true

/-- `str(value)` as it appears in the enrichment log text. -/
def valToString : Val → String
  | Val.str s => s
  | Val.num q => toString q
  | Val.strList l => toString l
  | Val.jsonBlob s => s
  | Val.null => "None"

/-- Fold the enrichment fields of one match onto (record, log). -/
def applyEnrichment (acc : Rec × List String) (m : MatchResultR) : Rec × List String :=
  m.enrichment_data.foldl (fun acc2 fv =>
    if keepEnrichmentVal fv.2 then
      (acc2.1.set fv.1 fv.2, acc2.2 ++ ["Added " ++ fv.1 ++ ": " ++ valToString fv.2])
    else acc2) acc

/-- `RefinedIntegrator.enrich_record_refined` (lines 421-452).  An empty
match list returns the copied record unchanged; otherwise enrichment fields
and the five metadata keys are written.  `list(set(...))` has unspecified
order in Python; it is modelled by order-preserving dedup. -/
def enrichRecordRefined (primary : Rec) (ms : List MatchResultR) : Rec :=
  match ms with
  | [] => primary
  | _ :: _ =>
    let sources := ms.map (·.external_source)
    let confidences := ms.map (·.confidence_score)
    let allFlags := ms.foldl (fun a m => a ++ m.quality_flags) []
    let er := ms.foldl applyEnrichment (primary, [])
    let e1 := er.1.set "enrichment_sources" (Val.strList sources)
    let e2 := e1.set "enrichment_log" (Val.strList er.2)
    let e3 := e2.set "match_confidence_avg" (Val.num (confidences.sum / confidences.length))
    let e4 := e3.set "quality_flags" (Val.strList allFlags.dedup)
    e4.set "geographic_validation" (Val.str "PASSED")

/-- The `data` JSON parsing step of `process_chunk_refined` (lines 334-339):
`json.loads` is an external library call, abstracted by `jsonOk`; a parse
failure stores the empty payload. -/
def addDataParsed (jsonOk : String → Bool) (r : Rec) : Rec :=
  match r.get "data" with
  | none => r
  | some v =>
    if v.truthy then
      match v with
      | Val.str s =>
        if jsonOk s then r.set "data_parsed" (Val.jsonBlob s)
        else r.set "data_parsed" (Val.jsonBlob "")
      | _ => r.set "data_parsed" (Val.jsonBlob "")
    else r

/-- The per-record body of `RefinedIntegrator.process_chunk_refined`
(lines 319-348): non-California records (which includes every record with a
zero or missing coordinate) and records whose coordinates fail float
conversion pass through untouched; the rest are matched and enriched. -/
def processRecordRefined (jsonOk : String → Bool) (distFn : DistFn)
    (pool : List Zone) (r : Rec) : Rec :=
  match r.getFloat? "lat", r.getFloat? "lng" with
  | some lat, some lng =>
    if !isInCalifornia lat lng then r
    else
      let r2 := addDataParsed jsonOk r
      enrichRecordRefined r2 (findEvacuationMatchesRefined distFn pool r2)
  | _, _ => r

/-- `RefinedIntegrator.process_chunk_refined` (lines 314-350): one output
row is appended per input row, in order. -/
def processChunkRefined (jsonOk : String → Bool) (distFn : DistFn)
    (pool : List Zone) (chunk : List Rec) : List Rec :=
  chunk.foldl (fun acc r => acc ++ [processRecordRefined jsonOk distFn pool r]) []

/-! ## Full-scale integrator (full_scale_integrator.py) -/

/-- `OptimizedEntityMatcher.spatial_prefilter` (lines 139-164): zero query
coordinates give the empty list; otherwise candidates are kept when both
coordinate differences are at most `maxD / 69` degrees; rows whose
coordinates fail float conversion are skipped. -/
def spatialPrefilter (plat plng : ℚ) (pool : List Rec)
    (latField lngField : String) (maxD : ℚ) : List Rec :=
  if plat = 0 || plng = 0 then []
  else
    let degreeBuffer := maxD / 69
    pool.filter (fun r =>
      match r.getFloat? latField, r.getFloat? lngField with
      | some elat, some elng =>
        decide (|plat - elat| ≤ degreeBuffer) && decide (|plng - elng| ≤ degreeBuffer)
      | _, _ => false)

/-- The geographic part of `OptimizedEntityMatcher.calculate_match_score`
(lines 185-198): zero when a coordinate is missing, zero, or the distance
exceeds 5 miles (`inf <= 5` is false); otherwise `max(0.1, 1 - d/5)`. -/
def geoScoreFull (distFn : DistFn) (primary external : Rec)
    (latField lngField : String) : ℚ :=
  match primary.getFloat? "lat", primary.getFloat? "lng",
      external.getFloat? latField, external.getFloat? lngField with
  | some plat, some plng, some elat, some elng =>
    if plat = 0 || plng = 0 || elat = 0 || elng = 0 then 0
    else
      match distFn plat plng elat elng with
      | (d : ℚ) => if d ≤ 5 then max 0.1 (1 - d / 5) else 0
      | ⊤ => 0
  | _, _, _, _ => 0

/-- `OptimizedEntityMatcher.calculate_match_score` (lines 166-210), the
early-exit variant: when name similarity is below 0.1 the geographic and
temporal factors are skipped and `name_weight * name_score` is returned.
Weights 0.4 / 0.4 / 0.2 (lines 92-94); temporal defaults to 0.5. -/
def calcMatchScoreFull (distFn : DistFn) (primary external : Rec)
    (latField lngField nameField : String) : ℚ × Factors :=
  let nameScore := nameSimilarity (primary.getStr "name") (external.getStr nameField)
  if nameScore < 0.1 then (nameScore * 0.4, ⟨nameScore, 0, 0⟩)
  else
    let geoScore := geoScoreFull distFn primary external latField lngField
    (0.4 * nameScore + 0.4 * geoScore + 0.2 * 0.5, ⟨nameScore, geoScore, 0.5⟩)

/-- Modelled from the spec: full weighted scoring without the early exit,
`w_name*name + w_geo*geo + w_temporal*temporal` with the same factor
computations (spec section 4.4); the refinement claim C5 compares the code
against this. -/
def calcMatchScoreFullSpec (distFn : DistFn) (primary external : Rec)
    (latField lngField nameField : String) : ℚ :=
  let nameScore := nameSimilarity (primary.getStr "name") (external.getStr nameField)
  let geoScore := geoScoreFull distFn primary external latField lngField
  0.4 * nameScore + 0.4 * geoScore + 0.2 * 0.5

/-- `MatchResult` dataclass of full_scale_integrator.py (lines 34-42). -/
structure MatchResultF where
  primary_id : Val
  external_id : String
  external_source : String
  confidence_score : ℚ
  match_factors : Factors
  enrichment_data : List (String × Val)
  deriving DecidableEq, Repr

/-- Fold the enrichment fields of one full-scale match onto (record, log). -/
def applyEnrichmentF (acc : Rec × List String) (m : MatchResultF) : Rec × List String :=
  m.enrichment_data.foldl (fun acc2 fv =>
    if keepEnrichmentVal fv.2 then
      (acc2.1.set fv.1 fv.2, acc2.2 ++ ["Added " ++ fv.1 ++ ": " ++ valToString fv.2])
    else acc2) acc

/-- `FullScaleIntegrator.enrich_record` (lines 371-398): an empty match list
returns the copied record unchanged; otherwise enrichment fields and three
metadata keys are written. -/
def enrichRecord (primary : Rec) (ms : List MatchResultF) : Rec :=
  match ms with
  | [] => primary
  | _ :: _ =>
    let sources := ms.map (·.external_source)
    let confidences := ms.map (·.confidence_score)
    let er := ms.foldl applyEnrichmentF (primary, [])
    let e1 := er.1.set "enrichment_sources" (Val.strList sources)
    let e2 := e1.set "enrichment_log" (Val.strList er.2)
    e2.set "match_confidence_avg" (Val.num (confidences.sum / confidences.length))

/-! ## Impact index calculator (economic metric directory)

`EconomicImpactIntegrator.calculate_impact_index`
(economic_impact_api_integrator.py lines 261-318) and
`EconomicImpactCalculator.calculate_impact_index`
(full_scale_economic_integrator.py lines 230-268) compute identical
component and composite formulas; the api variant additionally returns a
component_breakdown dict, not needed by any claim.  The input bundles are
dicts read with `.get(key, 0.0)`, modelled by optional rationals. -/

structure TourismData where
  tourism_dependency_index : Option ℚ
  lodging_establishments_count : Option ℚ
  deriving DecidableEq, Repr

structure BusinessData where
  small_business_pct : Option ℚ
  deriving DecidableEq, Repr

structure EvacData where
  households_no_vehicle_pct : Option ℚ
  elderly_population_pct : Option ℚ
  mobility_impaired_pct : Option ℚ
  deriving DecidableEq, Repr

structure EducationData where
  k12_student_density : Option ℚ
  caregiver_employment_pct : Option ℚ
  k12_schools_count : Option ℚ
  deriving DecidableEq, Repr

structure ImpactScores where
  economic_impact_index : ℚ
  tourism_exposure_score : ℚ
  small_business_vulnerability_score : ℚ
  evacuation_constraints_score : ℚ
  educational_disruption_score : ℚ
  deriving DecidableEq, Repr

/-- `calculate_impact_index` (both files). -/
def calculateImpactIndex (t : TourismData) (b : BusinessData) (e : EvacData)
    (ed : EducationData) : ImpactScores :=
  let tourismDependency := t.tourism_dependency_index.getD 0
  let lodging := min 1 ((t.lodging_establishments_count.getD 0) / 50)
  let tourismExposure := tourismDependency * 0.7 + lodging * 0.3
  let smallBusinessVulnerability := b.small_business_pct.getD 0
  let evacuationConstraints :=
    (e.households_no_vehicle_pct.getD 0) * 0.4 +
    (e.elderly_population_pct.getD 0) * 0.3 +
    (e.mobility_impaired_pct.getD 0) * 0.3
  let studentDensity := min 1 ((ed.k12_student_density.getD 0) / 100)
  let caregiver := ed.caregiver_employment_pct.getD 0
  let schoolCount := min 1 ((ed.k12_schools_count.getD 0) / 20)
  let educationalDisruption :=
    studentDensity * 0.4 + caregiver * 0.4 + schoolCount * 0.2
  let impactIndex :=
    0.50 * tourismExposure + 0.30 * smallBusinessVulnerability +
    0.20 * educationalDisruption
  { economic_impact_index := min 1 (max 0 impactIndex)
    tourism_exposure_score := tourismExposure
    small_business_vulnerability_score := smallBusinessVulnerability
    evacuation_constraints_score := evacuationConstraints
    educational_disruption_score := educationalDisruption }

/-! ## Great-circle distance (for claim C3) -/

noncomputable def degToRad (d : ℝ) : ℝ := d * Real.pi / 180

/-- Modelled from the spec: the exact great-circle distance in miles between
two latitude/longitude points (spec section 4.2 specifies great-circle
distance; the geopy geodesic used by the code is an external library, not
repository code).  Haversine form on a sphere of mean radius 3958.8 miles. -/
noncomputable def greatCircleMiles (lat1 lng1 lat2 lng2 : ℝ) : ℝ :=
  2 * 3958.8 * Real.arcsin (Real.sqrt
    (Real.sin ((degToRad lat2 - degToRad lat1) / 2) ^ 2 +
      Real.cos (degToRad lat1) * Real.cos (degToRad lat2) *
        Real.sin ((degToRad lng2 - degToRad lng1) / 2) ^ 2))

/-! ## Concrete instances used by witnesses and counterexamples -/

def C2dist : DistFn := fun _ _ _ _ => ((3 : ℚ) : Dist)

def C2zone : Zone := ⟨38, -122, "kincade", "Z1", "att", "ds"⟩

def C2primary : Rec :=
  [("id", Val.num 1), ("lat", Val.num 38), ("lng", Val.num (-122)),
   ("name", Val.str "kincade")]

def C8rec : Rec :=
  [("id", Val.num 1), ("lat", Val.num 0), ("lng", Val.num (-120)), ("name", Val.str "x")]

def C5primary : Rec :=
  [("lat", Val.num 38.44), ("lng", Val.num (-122.71)),
   ("name", Val.str "a b c d e f g h i j z")]

def C5external : Rec :=
  [("extracted_lat", Val.num 38.44), ("extracted_lng", Val.num (-122.71)),
   ("display_name", Val.str "z")]

def C5dist : DistFn := fun _ _ _ _ => ((0 : ℚ) : Dist)

def C3cand : Rec := [("extracted_lat", Val.num 60), ("extracted_lng", Val.num 10.4)]

/-! ## Shared bound lemmas -/

theorem geoScoreRefined_bounds (d : ℚ) (h0 : 0 ≤ d) :
    0 ≤ geoScoreRefined d ∧ geoScoreRefined d ≤ 1 := by
  unfold geoScoreRefined
  split_ifs with h1 h2
  · constructor <;> linarith
  · push_neg at h1
    constructor <;> linarith
  · push_neg at h1 h2
    constructor
    · exact le_trans (by norm_num) (le_max_left _ _)
    · exact max_le (by norm_num) (by linarith)

theorem nameSimilarity_bounds (n1 n2 : String) :
    0 ≤ nameSimilarity n1 n2 ∧ nameSimilarity n1 n2 ≤ 1 := by
  simp only [nameSimilarity]
  split_ifs with h1 h2
  · exact ⟨le_refl 0, by norm_num⟩
  · have hsub := Finset.card_le_card
      (Finset.inter_subset_union (s := (pyWords (canonicalizeName n1).toList).toFinset)
        (t := (pyWords (canonicalizeName n2).toList).toFinset))
    have hu : (0 : ℚ) < ((((pyWords (canonicalizeName n1).toList).toFinset ∪
        (pyWords (canonicalizeName n2).toList).toFinset).card : ℚ)) := by
      exact_mod_cast h2
    constructor
    · positivity
    · rw [div_le_one hu]
      exact_mod_cast hsub
  · exact ⟨le_refl 0, by norm_num⟩

theorem validateMatch_dist (distFn : DistFn) (plat plng elat elng maxD : ℚ) :
    (validateMatch distFn plat plng elat elng maxD).2.1 = distFn plat plng elat elng := rfl

theorem validateMatch_valid_le (distFn : DistFn) (plat plng elat elng maxD : ℚ)
    (h : (validateMatch distFn plat plng elat elng maxD).1 = true) :
    distFn plat plng elat elng ≤ (maxD : Dist) := by
  simp only [validateMatch, Bool.and_eq_true, decide_eq_true_eq] at h
  exact h.2

theorem geoScoreRefinedW_coe (q : ℚ) :
    geoScoreRefinedW (q : Dist) = geoScoreRefined q := by
  simp [geoScoreRefinedW, WithTop.untop']

/-- A fold step that preserves `P` when every element satisfies `Q`
preserves `P` over the whole fold. -/
theorem foldl_preserve {α β : Type} (P : β → Prop) (Q : α → Prop) (f : β → α → β)
    (hstep : ∀ b a, Q a → P b → P (f b a)) :
    ∀ (l : List α), (∀ a ∈ l, Q a) → ∀ init, P init → P (l.foldl f init)
  | [], _, _, hinit => hinit
  | a :: rest, hl, init, hinit =>
    foldl_preserve P Q f hstep rest (fun x hx => hl x (List.mem_cons_of_mem a hx))
      (f init a) (hstep init a (hl a (List.mem_cons_self a rest)) hinit)

/-! ## Claim theorems -/

/-- C1, counterexample: the claimed curve is wrong about the code at five
miles: the first branch yields 1 - 5/5 = 0 there, not the claimed 0.2; and
at the configured maximum (25 miles) the third branch is floored at 0.1
rather than decaying to 0. -/
theorem C1_claim_counterexample :
    geoScoreRefined 5 = 0 ∧ geoScoreRefined 5 ≠ 0.2 ∧ geoScoreRefined 25 = 0.1 := by
  norm_num [geoScoreRefined]

/-- C1 (amended): for every distance d at least 0, the geographic score is
the piecewise curve 1.0 at d = 0, linear decay reaching 0.0 at 5 miles,
a shallower linear decay from 0.8 down to 0.2 between 5 and 15 miles, and
beyond 15 miles a linear decay from 0.2 toward 0 at the configured maximum
floored at 0.1; the score is never negative (and never exceeds 1). -/
theorem C1_geo_score_curve (d : ℚ) (h0 : 0 ≤ d) :
    geoScoreRefined 0 = 1 ∧
    geoScoreRefined 5 = 0 ∧
    (d ≤ 5 → geoScoreRefined d = 1 - (1 - 0) * ((d - 0) / (5 - 0))) ∧
    (5 < d → d ≤ 15 → geoScoreRefined d = 0.8 - (0.8 - 0.2) * ((d - 5) / (15 - 5))) ∧
    (15 < d → geoScoreRefined d = max 0.1 (0.2 - 0.2 * ((d - 15) / (25 - 15)))) ∧
    0 ≤ geoScoreRefined d ∧ geoScoreRefined d ≤ 1 := by
  refine ⟨by norm_num [geoScoreRefined], by norm_num [geoScoreRefined], ?_, ?_, ?_,
    geoScoreRefined_bounds d h0⟩
  · intro h
    rw [geoScoreRefined, if_pos h]
    ring
  · intro h5 h15
    rw [geoScoreRefined, if_neg (by linarith), if_pos h15]
    ring
  · intro h15
    rw [geoScoreRefined, if_neg (by linarith), if_neg (by linarith)]
    ring_nf

/-- Witness for C1_geo_score_curve at d = 7. -/
theorem C1_geo_score_curve_witness :
    (0 : ℚ) ≤ 7 ∧ 0 ≤ geoScoreRefined 7 :=
  ⟨by norm_num, (C1_geo_score_curve 7 (by norm_num)).2.2.2.2.2.1⟩

/-- C4: canonicalization is not idempotent.  The trailing-fire rule strips
only one final `fire` token per application, so a name ending in two such
tokens canonicalizes differently under one and two applications. -/
theorem C4_canonicalize_not_idempotent :
    canonicalizeName "a fire fire" = "a fire" ∧
    canonicalizeName (canonicalizeName "a fire fire") = "a" ∧
    canonicalizeName (canonicalizeName "a fire fire") ≠ canonicalizeName "a fire fire" := by
  refine ⟨by decide, by decide, by decide⟩

/-- C6: the composite economic impact index equals the clamped weighted sum
0.50 tourism + 0.30 small business + 0.20 education of the computed
component scores, for every combination of input bundles (absent metrics
default to 0); all-absent and all-zero inputs give exactly 0, and inputs
saturating every component give exactly 1. -/
theorem C6_impact_index_clamped (t : TourismData) (b : BusinessData)
    (e : EvacData) (ed : EducationData) :
    (calculateImpactIndex t b e ed).economic_impact_index =
      min 1 (max 0
        (0.50 * (calculateImpactIndex t b e ed).tourism_exposure_score +
         0.30 * (calculateImpactIndex t b e ed).small_business_vulnerability_score +
         0.20 * (calculateImpactIndex t b e ed).educational_disruption_score)) ∧
    (calculateImpactIndex ⟨none, none⟩ ⟨none⟩ ⟨none, none, none⟩
        ⟨none, none, none⟩).economic_impact_index = 0 ∧
    (calculateImpactIndex ⟨some 0, some 0⟩ ⟨some 0⟩ ⟨some 0, some 0, some 0⟩
        ⟨some 0, some 0, some 0⟩).economic_impact_index = 0 ∧
    (calculateImpactIndex ⟨some 1, some 50⟩ ⟨some 1⟩ ⟨some 1, some 1, some 1⟩
        ⟨some 100, some 1, some 20⟩).economic_impact_index = 1 := by
  refine ⟨rfl, by norm_num [calculateImpactIndex], by norm_num [calculateImpactIndex],
    by norm_num [calculateImpactIndex]⟩

/-- C9, counterexample: the component scores are not clamped, so a raw
tourism dependency index above 1 pushes the tourism exposure component
above 1 (here 2 * 0.7 = 1.4). -/
theorem C9_claim_counterexample :
    (calculateImpactIndex ⟨some 2, some 0⟩ ⟨some 0⟩ ⟨some 0, some 0, some 0⟩
      ⟨some 0, some 0, some 0⟩).tourism_exposure_score = 1.4 ∧
    ¬ (calculateImpactIndex ⟨some 2, some 0⟩ ⟨some 0⟩ ⟨some 0, some 0, some 0⟩
      ⟨some 0, some 0, some 0⟩).tourism_exposure_score ≤ 1 := by
  refine ⟨by norm_num [calculateImpactIndex], by norm_num [calculateImpactIndex]⟩

/-- C9 (amended): each of the four component scores lies in [0,1] provided
the raw percentage and index inputs lie in [0,1] and the raw count and
density inputs are nonnegative (the counts and densities are normalized
with min, the percentages are taken as-is, so the domain restriction is
exactly what the counterexample forces). -/
theorem C9_components_bounded (t : TourismData) (b : BusinessData)
    (e : EvacData) (ed : EducationData)
    (h1 : 0 ≤ t.tourism_dependency_index.getD 0)
    (h2 : t.tourism_dependency_index.getD 0 ≤ 1)
    (h3 : 0 ≤ t.lodging_establishments_count.getD 0)
    (h4 : 0 ≤ b.small_business_pct.getD 0)
    (h5 : b.small_business_pct.getD 0 ≤ 1)
    (h6 : 0 ≤ e.households_no_vehicle_pct.getD 0)
    (h7 : e.households_no_vehicle_pct.getD 0 ≤ 1)
    (h8 : 0 ≤ e.elderly_population_pct.getD 0)
    (h9 : e.elderly_population_pct.getD 0 ≤ 1)
    (h10 : 0 ≤ e.mobility_impaired_pct.getD 0)
    (h11 : e.mobility_impaired_pct.getD 0 ≤ 1)
    (h12 : 0 ≤ ed.k12_student_density.getD 0)
    (h13 : 0 ≤ ed.caregiver_employment_pct.getD 0)
    (h14 : ed.caregiver_employment_pct.getD 0 ≤ 1)
    (h15 : 0 ≤ ed.k12_schools_count.getD 0) :
    (0 ≤ (calculateImpactIndex t b e ed).tourism_exposure_score ∧
      (calculateImpactIndex t b e ed).tourism_exposure_score ≤ 1) ∧
    (0 ≤ (calculateImpactIndex t b e ed).small_business_vulnerability_score ∧
      (calculateImpactIndex t b e ed).small_business_vulnerability_score ≤ 1) ∧
    (0 ≤ (calculateImpactIndex t b e ed).evacuation_constraints_score ∧
      (calculateImpactIndex t b e ed).evacuation_constraints_score ≤ 1) ∧
    (0 ≤ (calculateImpactIndex t b e ed).educational_disruption_score ∧
      (calculateImpactIndex t b e ed).educational_disruption_score ≤ 1) := by
  have l1 : 0 ≤ min 1 ((t.lodging_establishments_count.getD 0) / 50) :=
    le_min (by norm_num) (by positivity)
  have l2 : min 1 ((t.lodging_establishments_count.getD 0) / 50) ≤ 1 := min_le_left _ _
  have l3 : 0 ≤ min 1 ((ed.k12_student_density.getD 0) / 100) :=
    le_min (by norm_num) (by positivity)
  have l4 : min 1 ((ed.k12_student_density.getD 0) / 100) ≤ 1 := min_le_left _ _
  have l5 : 0 ≤ min 1 ((ed.k12_schools_count.getD 0) / 20) :=
    le_min (by norm_num) (by positivity)
  have l6 : min 1 ((ed.k12_schools_count.getD 0) / 20) ≤ 1 := min_le_left _ _
  simp only [calculateImpactIndex]
  refine ⟨⟨by nlinarith, by nlinarith⟩, ⟨h4, h5⟩, ⟨by nlinarith, by nlinarith⟩,
    ⟨by nlinarith, by nlinarith⟩⟩

/-- Witness for C9_components_bounded at concrete in-range bundles. -/
theorem C9_components_bounded_witness :
    0 ≤ (calculateImpactIndex ⟨some 0.5, some 10⟩ ⟨some 0.3⟩
      ⟨some 0.2, some 0.4, some 0.1⟩ ⟨some 40, some 0.6, some 5⟩).tourism_exposure_score ∧
    (calculateImpactIndex ⟨some 0.5, some 10⟩ ⟨some 0.3⟩
      ⟨some 0.2, some 0.4, some 0.1⟩ ⟨some 40, some 0.6, some 5⟩).tourism_exposure_score ≤ 1 :=
  (C9_components_bounded ⟨some 0.5, some 10⟩ ⟨some 0.3⟩
    ⟨some 0.2, some 0.4, some 0.1⟩ ⟨some 40, some 0.6, some 5⟩
    (by norm_num) (by norm_num) (by norm_num) (by norm_num) (by norm_num)
    (by norm_num) (by norm_num) (by norm_num) (by norm_num) (by norm_num)
    (by norm_num) (by norm_num) (by norm_num) (by norm_num) (by norm_num)).1

/-- C7: for every nonnegative distance function (great-circle distance is
nonnegative), every primary record and every candidate zone, the refined
scorer returns a confidence in [0,1], and the returned distance is either
the +infinity sentinel (used for the incomparable and invalid coordinate
branches) or a finite nonnegative value; the embedding is total, the
try/except paths appearing as the coordinate_error and missing_coordinates
branches. -/
theorem C7_confidence_distance_bounds (distFn : DistFn)
    (hd : ∀ a b c d, (0 : Dist) ≤ distFn a b c d) (primary : Rec) (z : Zone) :
    (0 ≤ (calcMatchScoreRefined distFn primary z).1 ∧
      (calcMatchScoreRefined distFn primary z).1 ≤ 1) ∧
    ((calcMatchScoreRefined distFn primary z).2.2.2.1 = ⊤ ∨
      ∃ q : ℚ, (calcMatchScoreRefined distFn primary z).2.2.2.1 = (q : Dist) ∧ 0 ≤ q) := by
  have hdq : ∀ (q : ℚ) a b c d, distFn a b c d = (q : Dist) → 0 ≤ q := by
    intro q a b c d hq
    have := hd a b c d
    rw [hq, ← WithTop.coe_zero, WithTop.coe_le_coe] at this
    exact this
  rcases hlat : primary.getFloat? "lat" with _ | plat
  · simp only [calcMatchScoreRefined, hlat]
    exact ⟨⟨le_refl 0, by norm_num⟩, Or.inl (by simp)⟩
  · rcases hlng : primary.getFloat? "lng" with _ | plng
    · simp only [calcMatchScoreRefined, hlat, hlng]
      exact ⟨⟨le_refl 0, by norm_num⟩, Or.inl (by simp)⟩
    · simp only [calcMatchScoreRefined, hlat, hlng]
      split_ifs with hz hv
      · exact ⟨⟨le_refl 0, by norm_num⟩, Or.inl (by simp)⟩
      · refine ⟨⟨le_refl 0, by norm_num⟩, ?_⟩
        rw [validateMatch_dist]
        rcases hfd : distFn plat plng z.extracted_lat z.extracted_lng with _ | q
        · exact Or.inl rfl
        · exact Or.inr ⟨q, rfl, hdq q _ _ _ _ hfd⟩
      · have hvt : (validateMatch distFn plat plng z.extracted_lat z.extracted_lng 25).1 = true := by
          revert hv
          cases (validateMatch distFn plat plng z.extracted_lat z.extracted_lng 25).1 <;> simp
        have hle := validateMatch_valid_le distFn plat plng z.extracted_lat z.extracted_lng 25 hvt
        have hne : distFn plat plng z.extracted_lat z.extracted_lng ≠ ⊤ := by
          intro htop
          rw [htop] at hle
          exact WithTop.coe_ne_top (top_le_iff.mp hle)
        obtain ⟨q, hq⟩ := WithTop.ne_top_iff_exists.mp hne
        have hq0 : 0 ≤ q := hdq q _ _ _ _ hq.symm
        have hq25 : q ≤ 25 := by
          rw [← hq, WithTop.coe_le_coe] at hle
          exact hle
        have hgb := geoScoreRefined_bounds q hq0
        have hnb := nameSimilarity_bounds (primary.getStr "name") z.display_name
        constructor
        · rw [validateMatch_dist, ← hq, geoScoreRefinedW_coe]
          constructor
          · nlinarith [hnb.1, hnb.2, hgb.1, hgb.2]
          · nlinarith [hnb.1, hnb.2, hgb.1, hgb.2]
        · rw [validateMatch_dist, ← hq]
          exact Or.inr ⟨q, rfl, hq0⟩

/-- Witness for C7_confidence_distance_bounds: a constant three-mile
distance function, a concrete record and zone. -/
theorem C7_confidence_distance_bounds_witness :
    0 ≤ (calcMatchScoreRefined (fun _ _ _ _ => ((3 : ℚ) : Dist))
      [("id", Val.num 1), ("lat", Val.num 38), ("lng", Val.num (-122)),
        ("name", Val.str "kincade")]
      ⟨38, -122, "kincade", "Z1", "att", "ds"⟩).1 :=
  (C7_confidence_distance_bounds (fun _ _ _ _ => ((3 : ℚ) : Dist))
    (fun _ _ _ _ => by
      rw [← WithTop.coe_zero, WithTop.coe_le_coe]
      norm_num)
    [("id", Val.num 1), ("lat", Val.num 38), ("lng", Val.num (-122)),
      ("name", Val.str "kincade")]
    ⟨38, -122, "kincade", "Z1", "att", "ds"⟩).1.1

theorem calcMatchScoreRefined_valid (distFn : DistFn) (primary : Rec) (z : Zone)
    (plat plng : ℚ) (hlat : primary.getFloat? "lat" = some plat)
    (hlng : primary.getFloat? "lng" = some plng)
    (h : (calcMatchScoreRefined distFn primary z).2.2.1 = true) :
    (calcMatchScoreRefined distFn primary z).2.2.2.1 =
      distFn plat plng z.extracted_lat z.extracted_lng ∧
    distFn plat plng z.extracted_lat z.extracted_lng ≤ (25 : Dist) := by
  simp only [calcMatchScoreRefined, hlat, hlng] at h ⊢
  split_ifs at h ⊢ with h1 h2
  have hvt : (validateMatch distFn plat plng z.extracted_lat z.extracted_lng 25).1 = true := by
    revert h2
    cases (validateMatch distFn plat plng z.extracted_lat z.extracted_lng 25).1 <;> simp
  exact ⟨rfl, validateMatch_valid_le distFn plat plng z.extracted_lat z.extracted_lng 25 hvt⟩

/-- C2: for every distance function, candidate pool and primary record, a
winning match always comes from a pool candidate whose exact distance to
the primary record is at most 25 miles, and the recorded distance is that
exact distance: the bound is a hard validity gate, so a candidate farther
than 25 miles is never selected regardless of its name similarity. -/
theorem C2_hard_distance_gate (distFn : DistFn) (pool : List Zone) (primary : Rec)
    (m : MatchResultR) (hm : m ∈ findEvacuationMatchesRefined distFn pool primary)
    (plat plng : ℚ) (hlat : primary.getFloat? "lat" = some plat)
    (hlng : primary.getFloat? "lng" = some plng) :
    ∃ z ∈ pool, m.external_id = z.uid_v2 ∧
      m.distance_miles = distFn plat plng z.extracted_lat z.extracted_lng ∧
      distFn plat plng z.extracted_lat z.extracted_lng ≤ (25 : Dist) := by
  simp only [findEvacuationMatchesRefined, hlat, hlng] at hm
  split_ifs at hm with hz
  · simp at hm
  · have hfold : ∀ m0,
        ((pool.filter (fun z =>
            decide (|plat - z.extracted_lat| ≤ 0.5) &&
            decide (|plng - z.extracted_lng| ≤ 0.5))).foldl
          (bestStep distFn primary) (none, 0)).1 = some m0 →
        ∃ z ∈ pool, m0.external_id = z.uid_v2 ∧
          m0.distance_miles = distFn plat plng z.extracted_lat z.extracted_lng ∧
          distFn plat plng z.extracted_lat z.extracted_lng ≤ (25 : Dist) := by
      refine foldl_preserve
        (fun st => ∀ m0, st.1 = some m0 → ∃ z ∈ pool, m0.external_id = z.uid_v2 ∧
          m0.distance_miles = distFn plat plng z.extracted_lat z.extracted_lng ∧
          distFn plat plng z.extracted_lat z.extracted_lng ≤ (25 : Dist))
        (fun z => z ∈ pool) (bestStep distFn primary) ?_ _
        (fun z hz2 => List.mem_of_mem_filter hz2) _ ?_
      · intro st z hzp hPst
        simp only [bestStep]
        split_ifs with hcond
        · rw [Bool.and_eq_true, Bool.and_eq_true] at hcond
          have hval : (calcMatchScoreRefined distFn primary z).2.2.1 = true := hcond.1.1
          have hc := calcMatchScoreRefined_valid distFn primary z plat plng hlat hlng hval
          cases hid : primary.get "id" with
          | some idv =>
            intro m0 hm0
            simp only at hm0
            injection hm0 with hm0
            exact ⟨z, hzp, hm0 ▸ rfl, hm0 ▸ hc.1, hc.2⟩
          | none => exact hPst
        · exact hPst
      · intro m0 h0
        exact Option.noConfusion h0
    rcases hb : ((pool.filter (fun z =>
        decide (|plat - z.extracted_lat| ≤ 0.5) &&
        decide (|plng - z.extracted_lng| ≤ 0.5))).foldl
          (bestStep distFn primary) (none, 0)).1 with _ | m0
    · rw [hb] at hm
      simp at hm
    · rw [hb] at hm
      simp at hm
      subst hm
      exact hfold _ hb

theorem nameSimilarity_kincade : nameSimilarity "kincade" "kincade" = 1 := by
  simp only [nameSimilarity]
  rw [show pyWords (canonicalizeName "kincade").toList = ["kincade"] from rfl]
  simp

theorem C2validate_eval :
    validateMatch C2dist 38 (-122) 38 (-122) 25 = (true, ((3 : ℚ) : Dist), []) := by
  have h1 : isInCalifornia 38 (-122) = true := by
    unfold isInCalifornia CA_LAT_MIN CA_LAT_MAX CA_LNG_MIN CA_LNG_MAX
    norm_num
  norm_num [validateMatch, C2dist, h1, WithTop.coe_lt_coe, WithTop.coe_le_coe]
  exact_mod_cast (by norm_num : (3 : ℚ) ≤ 25)

theorem C2calc_eval :
    calcMatchScoreRefined C2dist C2primary C2zone =
      (0.59, ⟨1, 2/5, 0.5⟩, true, ((3 : ℚ) : Dist), []) := by
  have hlat : C2primary.getFloat? "lat" = some 38 := rfl
  have hlng : C2primary.getFloat? "lng" = some (-122) := rfl
  have hname : C2primary.getStr "name" = "kincade" := rfl
  have hz1 : C2zone.extracted_lat = 38 := rfl
  have hz2 : C2zone.extracted_lng = -122 := rfl
  have hdn : C2zone.display_name = "kincade" := rfl
  simp only [calcMatchScoreRefined, hlat, hlng, hname, hz1, hz2, hdn, C2validate_eval]
  rw [if_neg (by
    simp only [Bool.or_eq_true, decide_eq_true_eq]
    push_neg
    norm_num)]
  simp only [Bool.not_true, nameSimilarity_kincade, geoScoreRefinedW_coe]
  norm_num [geoScoreRefined]

theorem C2find_eval :
    findEvacuationMatchesRefined C2dist [C2zone] C2primary =
      [mkMatchR (Val.num 1) C2zone 0.59 ((3 : ℚ) : Dist) ⟨1, 2/5, 0.5⟩ []] := by
  have hlat : C2primary.getFloat? "lat" = some 38 := rfl
  have hlng : C2primary.getFloat? "lng" = some (-122) := rfl
  have hid : C2primary.get "id" = some (Val.num 1) := rfl
  have hz1 : C2zone.extracted_lat = 38 := rfl
  have hz2 : C2zone.extracted_lng = -122 := rfl
  simp only [findEvacuationMatchesRefined, hlat, hlng]
  rw [if_neg (by
    simp only [Bool.or_eq_true, decide_eq_true_eq]
    push_neg
    norm_num)]
  simp only [List.filter_cons, List.filter_nil, hz1, hz2]
  rw [if_pos (by
    simp only [Bool.and_eq_true, decide_eq_true_eq]
    norm_num)]
  simp only [List.foldl_cons, List.foldl_nil, bestStep, C2calc_eval]
  rw [if_pos (by
    simp only [Bool.and_eq_true, decide_eq_true_eq]
    norm_num), hid]

/-- Witness for C2_hard_distance_gate at a concrete pool, record and a
constant three-mile distance function. -/
theorem C2_hard_distance_gate_witness :
    ∃ z ∈ [C2zone],
      (mkMatchR (Val.num 1) C2zone 0.59 ((3 : ℚ) : Dist) ⟨1, 2/5, 0.5⟩ []).external_id =
        z.uid_v2 ∧
      (mkMatchR (Val.num 1) C2zone 0.59 ((3 : ℚ) : Dist) ⟨1, 2/5, 0.5⟩ []).distance_miles =
        C2dist 38 (-122) z.extracted_lat z.extracted_lng ∧
      C2dist 38 (-122) z.extracted_lat z.extracted_lng ≤ (25 : Dist) :=
  C2_hard_distance_gate C2dist [C2zone] C2primary _
    (by rw [C2find_eval]; exact List.mem_singleton_self _) 38 (-122) rfl rfl

theorem foldl_append_eq_map (f : Rec → Rec) :
    ∀ (l : List Rec) (acc : List Rec),
      l.foldl (fun a r => a ++ [f r]) acc = acc ++ l.map f
  | [], acc => by simp
  | x :: rest, acc => by
    simp only [List.foldl_cons, List.map_cons]
    rw [foldl_append_eq_map f rest (acc ++ [f x])]
    simp

theorem isInCalifornia_zero_lat (lng : ℚ) : isInCalifornia 0 lng = false := by
  have h : ¬ (CA_LAT_MIN ≤ (0 : ℚ)) := by unfold CA_LAT_MIN; norm_num
  simp [isInCalifornia, h]

theorem isInCalifornia_zero_lng (lat : ℚ) : isInCalifornia lat 0 = false := by
  have h : ¬ ((0 : ℚ) ≤ CA_LNG_MAX) := by unfold CA_LNG_MAX; norm_num
  simp [isInCalifornia, h]

theorem processRecordRefined_ungeolocated (jsonOk : String → Bool) (distFn : DistFn)
    (pool : List Zone) (r : Rec)
    (h : r.getFloat? "lat" = some 0 ∨ r.getFloat? "lng" = some 0) :
    processRecordRefined jsonOk distFn pool r = r := by
  rcases h with h | h
  · rcases hlng : r.getFloat? "lng" with _ | ln
    · simp only [processRecordRefined, h, hlng]
    · simp only [processRecordRefined, h, hlng, isInCalifornia_zero_lat ln,
        Bool.not_false, if_pos]
  · rcases hlat : r.getFloat? "lat" with _ | la
    · simp only [processRecordRefined, h, hlat]
    · simp only [processRecordRefined, h, hlat, isInCalifornia_zero_lng la,
        Bool.not_false, if_pos]

/-- C8: chunk processing emits exactly one output row per input row, in
order (so every input record appears exactly once in the chunk's output);
a record whose latitude or longitude is zero - which is also what an
absent coordinate key defaults to - passes through unmatched: its output
row is the untouched input record, with no enrichment fields. -/
theorem C8_chunk_completeness (jsonOk : String → Bool) (distFn : DistFn)
    (pool : List Zone) (chunk : List Rec) :
    (processChunkRefined jsonOk distFn pool chunk).length = chunk.length ∧
    ∀ (i : ℕ) (r : Rec), chunk[i]? = some r →
      (r.getFloat? "lat" = some 0 ∨ r.getFloat? "lng" = some 0) →
      (processChunkRefined jsonOk distFn pool chunk)[i]? = some r := by
  have hmap : processChunkRefined jsonOk distFn pool chunk =
      chunk.map (processRecordRefined jsonOk distFn pool) := by
    unfold processChunkRefined
    rw [foldl_append_eq_map]
    simp
  constructor
  · rw [hmap, List.length_map]
  · intro i r hi hz
    rw [hmap, List.getElem?_map, hi]
    simp [processRecordRefined_ungeolocated jsonOk distFn pool r hz]

/-- Witness for C8_chunk_completeness on a one-record chunk whose record
has latitude zero. -/
theorem C8_chunk_completeness_witness :
    (processChunkRefined (fun _ => true) (fun _ _ _ _ => ((3 : ℚ) : Dist)) []
      [C8rec]).length = [C8rec].length ∧
    (processChunkRefined (fun _ => true) (fun _ _ _ _ => ((3 : ℚ) : Dist)) []
      [C8rec])[0]? = some C8rec :=
  ⟨(C8_chunk_completeness (fun _ => true) (fun _ _ _ _ => ((3 : ℚ) : Dist)) [] [C8rec]).1,
    (C8_chunk_completeness (fun _ => true) (fun _ _ _ _ => ((3 : ℚ) : Dist)) [] [C8rec]).2
      0 C8rec rfl (Or.inl rfl)⟩

theorem nameSimilarity_C5 :
    nameSimilarity "a b c d e f g h i j z" "z" = 1 / 11 := by
  simp only [nameSimilarity]
  rw [show pyWords (canonicalizeName "a b c d e f g h i j z").toList =
      ["a", "b", "c", "d", "e", "f", "g", "h", "i", "j", "z"] from rfl,
    show pyWords (canonicalizeName "z").toList = ["z"] from rfl]
  rw [if_neg (by decide)]
  rw [show ((["a", "b", "c", "d", "e", "f", "g", "h", "i", "j", "z"].toFinset ∩
      ["z"].toFinset).card) = 1 from by decide,
    show ((["a", "b", "c", "d", "e", "f", "g", "h", "i", "j", "z"].toFinset ∪
      ["z"].toFinset).card) = 11 from by decide]
  rw [if_pos (by norm_num)]
  norm_num

/-- C5: the early-exit variant is not acceptance-preserving.  For a
candidate at identical coordinates (exact distance 0) whose name
similarity is 1/11, below the 0.1 floor, full weighted scoring
(0.4 name + 0.4 geo + 0.2 temporal) yields about 0.536, above the 0.3
confidence threshold, while the early-exit variant returns 0.4/11 and
rejects: the shortcut changes the outcome of an accepted candidate. -/
theorem C5_early_exit_changes_outcome (distFn : DistFn)
    (h : distFn 38.44 (-122.71) 38.44 (-122.71) = ((0 : ℚ) : Dist)) :
    (calcMatchScoreFull distFn C5primary C5external
      "extracted_lat" "extracted_lng" "display_name").1 < 0.3 ∧
    0.3 ≤ calcMatchScoreFullSpec distFn C5primary C5external
      "extracted_lat" "extracted_lng" "display_name" := by
  have hn : C5primary.getStr "name" = "a b c d e f g h i j z" := rfl
  have hdn : C5external.getStr "display_name" = "z" := rfl
  have hgeo : geoScoreFull distFn C5primary C5external "extracted_lat" "extracted_lng" = 1 := by
    have h1 : C5primary.getFloat? "lat" = some 38.44 := rfl
    have h2 : C5primary.getFloat? "lng" = some (-122.71) := rfl
    have h3 : C5external.getFloat? "extracted_lat" = some 38.44 := rfl
    have h4 : C5external.getFloat? "extracted_lng" = some (-122.71) := rfl
    simp only [geoScoreFull, h1, h2, h3, h4, h]
    rw [if_neg (by
      simp only [Bool.or_eq_true, decide_eq_true_eq]
      push_neg
      norm_num)]
    rw [if_pos (by norm_num)]
    norm_num
  constructor
  · simp only [calcMatchScoreFull, hn, hdn, nameSimilarity_C5]
    rw [if_pos (by norm_num)]
    norm_num
  · simp only [calcMatchScoreFullSpec, hn, hdn, nameSimilarity_C5, hgeo]
    norm_num

/-- Witness for C5_early_exit_changes_outcome at the constant-zero
distance function. -/
theorem C5_early_exit_changes_outcome_witness :
    C5dist 38.44 (-122.71) 38.44 (-122.71) = ((0 : ℚ) : Dist) ∧
    ((calcMatchScoreFull C5dist C5primary C5external
      "extracted_lat" "extracted_lng" "display_name").1 < 0.3 ∧
    0.3 ≤ calcMatchScoreFullSpec C5dist C5primary C5external
      "extracted_lat" "extracted_lng" "display_name") :=
  ⟨rfl, C5_early_exit_changes_outcome C5dist rfl⟩

theorem arcsin_le_pi_div_two_mul {x : ℝ} (h0 : 0 ≤ x) (h1 : x ≤ 1) :
    Real.arcsin x ≤ Real.pi / 2 * x := by
  have t0 : 0 ≤ Real.arcsin x := Real.arcsin_nonneg.mpr h0
  have t1 : Real.arcsin x ≤ Real.pi / 2 := Real.arcsin_le_pi_div_two x
  have hj := Real.mul_le_sin t0 t1
  rw [Real.sin_arcsin (by linarith) h1] at hj
  have hpi : (0 : ℝ) < Real.pi := Real.pi_pos
  calc Real.arcsin x = Real.pi / 2 * (2 / Real.pi * Real.arcsin x) := by
        field_simp
        ring
    _ ≤ Real.pi / 2 * x := by
        apply mul_le_mul_of_nonneg_left hj
        positivity

/-- C3: the spatial prefilter is not a superset filter: the bounding box
uses maxDistanceMiles / 69 degrees for longitude as well as latitude, but
away from the equator a degree of longitude spans far fewer miles.  At
latitude 60 with maxDistanceMiles = 25, a candidate 0.4 degrees of
longitude away is dropped by the box (0.4 > 25/69) although its exact
great-circle distance is under 14 miles, well within 25: a false negative
on an in-radius candidate. -/
theorem C3_prefilter_false_negative :
    spatialPrefilter 60 10 [C3cand] "extracted_lat" "extracted_lng" 25 = [] ∧
    greatCircleMiles 60 10 60 10.4 ≤ 25 := by
  constructor
  · have h3 : C3cand.getFloat? "extracted_lat" = some 60 := rfl
    have h4 : C3cand.getFloat? "extracted_lng" = some 10.4 := rfl
    have habs : |(10 : ℚ) - 10.4| = 0.4 := by
      rw [show (10 : ℚ) - 10.4 = -(0.4) from by norm_num, abs_neg,
        abs_of_nonneg (by norm_num : (0 : ℚ) ≤ 0.4)]
    simp only [spatialPrefilter]
    rw [if_neg (by
      simp only [Bool.or_eq_true, decide_eq_true_eq]
      push_neg
      norm_num)]
    simp only [List.filter_cons, List.filter_nil, h3, h4, habs]
    rw [if_neg (by
      simp only [Bool.and_eq_true, decide_eq_true_eq]
      rintro ⟨-, hb⟩
      norm_num at hb)]
  · have hpi : (0 : ℝ) < Real.pi := Real.pi_pos
    have e3 : Real.cos (degToRad 60) = 1 / 2 := by
      rw [show degToRad 60 = Real.pi / 3 from by unfold degToRad; ring]
      exact Real.cos_pi_div_three
    have hs0 : 0 ≤ Real.sin (Real.pi / 900) :=
      Real.sin_nonneg_of_nonneg_of_le_pi (by positivity) (by linarith)
    have hdist : greatCircleMiles 60 10 60 10.4 =
        2 * 3958.8 * Real.arcsin (Real.sin (Real.pi / 900) / 2) := by
      unfold greatCircleMiles
      rw [show Real.sin ((degToRad 60 - degToRad 60) / 2) = 0 from by
        rw [sub_self, zero_div, Real.sin_zero]]
      rw [show (degToRad 10.4 - degToRad 10) / 2 = Real.pi / 900 from by
        unfold degToRad; ring]
      rw [e3]
      rw [show (0 : ℝ) ^ 2 + 1 / 2 * (1 / 2) * Real.sin (Real.pi / 900) ^ 2 =
          (Real.sin (Real.pi / 900) / 2) ^ 2 from by ring]
      rw [Real.sqrt_sq (by positivity)]
    have hs1 : Real.sin (Real.pi / 900) ≤ Real.pi / 900 :=
      le_of_lt (Real.sin_lt (by positivity))
    have hx0 : 0 ≤ Real.sin (Real.pi / 900) / 2 := by linarith
    have hx1 : Real.sin (Real.pi / 900) / 2 ≤ 1 := by
      have := Real.sin_le_one (Real.pi / 900)
      linarith
    have harc := arcsin_le_pi_div_two_mul hx0 hx1
    have hpi315 : Real.pi < 3.15 := Real.pi_lt_d2
    rw [hdist]
    have hb1 : Real.arcsin (Real.sin (Real.pi / 900) / 2) ≤
        Real.pi / 2 * (Real.pi / 900 / 2) := by
      refine le_trans harc ?_
      have h2 : (0 : ℝ) ≤ Real.pi / 2 := by positivity
      nlinarith
    nlinarith [mul_pos hpi hpi, mul_lt_mul_of_pos_left hpi315 hpi]

/-- C10: enriching with an empty match list is the identity, in both
integrators: the record is returned unchanged and in particular every
lookup (including the five enrichment metadata keys) is unchanged. -/
theorem C10_enrich_empty_identity (r : Rec) :
    enrichRecordRefined r [] = r ∧ enrichRecord r [] = r ∧
    (∀ k, (enrichRecordRefined r []).get k = r.get k) ∧
    (∀ k, (enrichRecord r []).get k = r.get k) :=
  ⟨rfl, rfl, fun _ => rfl, fun _ => rfl⟩

end Wids
